import Mathlib

/-!
Shallow embedding of `src/gnssmonitor.py` (gnssmonitor CLI, version 1.2).

Python values read reflectively from decoded UBX messages are modelled by
`PyVal`; a decoded record's attribute bag is an association list from
attribute names to values, and Python `getattr(obj, name, None)` becomes an
association-list lookup returning `Option PyVal`.  Machine state mutated by
the handlers (the five `_last_UTC_*` fields, plus the `_verbose` and
`_rawpath` session flags they read) is the `Monitor` structure, and each
handler is a function from `Monitor` and a message to the new `Monitor`
paired with its observable output (console lines / CSV rows).  Python
exceptions become `Except`.  Wall-clock time in the acknowledgment-wait
loops is modelled by attaching to each received message the elapsed time
(`time.time() - start_time`) observed at that loop iteration's timeout
check; the loops consume a list of such timed messages.
-/

/-- A Python runtime value as stored in a decoded UBX message attribute. -/
inductive PyVal where
  | none : PyVal
  | int (i : ℤ) : PyVal
  | str (s : String) : PyVal
deriving DecidableEq, Repr

/-- Python `getattr` default: an absent optional attribute reads as `None`. -/
def optVal : Option PyVal → PyVal
  | Option.none => PyVal.none
  | Option.some v => v

/-- The attribute bag of a decoded UBX message (`pyubx2` sets one Python
attribute per payload field; repeated-block fields are named
`stem` + zero-padded two-digit 1-based index). -/
structure URecord where
  attrs : List (String × PyVal)
deriving DecidableEq, Repr

/-- Python `getattr(msg, name, None)`. -/
def pygetattr (r : URecord) (name : String) : Option PyVal :=
  r.attrs.lookup name

/-- Python `str.zfill`: left-pad with `'0'` up to width `w`
(our uses only pad nonnegative integer strings, so the sign handling of
Python `zfill` never differs from plain padding). -/
def zfillStr (s : String) (w : ℕ) : String :=
  if w ≤ s.length then s else String.mk (List.replicate (w - s.length) '0') ++ s

/-- `str(n).zfill(w)` for a nonnegative integer `n`. -/
def zfillN (n : ℕ) (w : ℕ) : String :=
  zfillStr (toString n) w

/-- `gnssmonitor._getattr_helper`: access to repeated-block attributes,
`getattr(msg, attr_name + str(index).zfill(2), None)` (lines 258-270).
Total: it returns `Option.none` for an absent attribute and never raises. -/
def getattr_helper (r : URecord) (attr_name : String) (index : ℕ) : Option PyVal :=
  pygetattr r (attr_name ++ zfillN index 2)

/-- The monitor object's mutable state read/written by the handlers:
the five `_last_UTC_*` fields (lines 64-68) plus the session flags
`_verbose` and whether `_rawpath` was given. -/
structure Monitor where
  verbose : Bool
  rawpath : Bool
  last_UTC_date : Option String
  last_UTC_date_valid : Bool
  last_UTC_tod : Option String
  last_UTC_nano : Option String
  last_UTC_tod_valid : Bool
deriving DecidableEq, Repr

/-- The state right after `__init__` (lines 64-68): no date or time yet,
both validity flags `False`. -/
def initMonitor (verbose rawpath : Bool) : Monitor :=
  { verbose := verbose
    rawpath := rawpath
    last_UTC_date := Option.none
    last_UTC_date_valid := false
    last_UTC_tod := Option.none
    last_UTC_nano := Option.none
    last_UTC_tod_valid := false }

/-- `gnssmonitor._get_last_UTC` (lines 273-291): formatted last-UTC string;
an invalid component renders as its placeholder token, and the nanosecond
offset is appended only when the time of day is valid.  (When a validity
flag is set the corresponding `Option` field is always `some`, so the
`getD ""` defaults are never observable.) -/
def get_last_UTC (s : Monitor) : String :=
  (if s.last_UTC_date_valid then s.last_UTC_date.getD "" else "no_valid_date")
    ++ " "
    ++ (if s.last_UTC_tod_valid then
          s.last_UTC_tod.getD "" ++ " n=" ++ s.last_UTC_nano.getD ""
        else "no_valid_time")

/-- The fields of a UBX-NAV-PVT message read by `_NAV_PVT_handler`
(besides the raw-dump row, which touches no state). -/
structure PvtMsg where
  year : ℕ
  month : ℕ
  day : ℕ
  hour : ℕ
  min : ℕ
  second : ℕ
  nano : ℤ
  confirmedDate : ℕ
  confirmedTime : ℕ
  gnssFixOk : ℕ
deriving DecidableEq, Repr

/-- The UTC-state update of `_NAV_PVT_handler` (lines 306-318): the
validity flags are overwritten unconditionally from the message's
`confirmedDate` / `confirmedTime` flags; date and time-of-day strings are
rewritten only when the corresponding flag is 1. -/
def NAV_PVT_update (s : Monitor) (m : PvtMsg) : Monitor :=
  let s1 :=
    if m.confirmedDate = 1 then
      { s with
          last_UTC_date_valid := true
          last_UTC_date :=
            Option.some (zfillN m.year 4 ++ "-" ++ zfillN m.month 2 ++ "-" ++ zfillN m.day 2) }
    else { s with last_UTC_date_valid := false }
  if m.confirmedTime = 1 then
    { s1 with
        last_UTC_tod_valid := true
        last_UTC_tod :=
          Option.some (zfillN m.hour 2 ++ ":" ++ zfillN m.min 2 ++ ":" ++ zfillN m.second 2)
        last_UTC_nano := Option.some (toString m.nano) }
  else { s1 with last_UTC_tod_valid := false }

/-- The `gnssFixOk` console logging of `_NAV_PVT_handler` (lines 320-326),
evaluated against the already-updated state. -/
def NAV_PVT_fix_lines (s : Monitor) (m : PvtMsg) : List String :=
  match m.gnssFixOk with
  | 0 => [get_last_UTC s ++ ": No valid fix"]
  | 1 => if s.verbose then [get_last_UTC s ++ ": Valid fix"] else []
  | _ => []

/-- `gnssmonitor._NAV_PVT_handler` (lines 299-378): updates the UTC state,
then logs the fix status.  The optional raw-dump block (lines 329-378) only
appends one CSV row built from the message and the updated state; it reads
but never writes monitor state and is not modelled further. -/
def NAV_PVT_handler (s : Monitor) (m : PvtMsg) : Monitor × List String :=
  let s2 := NAV_PVT_update s m
  (s2, NAV_PVT_fix_lines s2 m)

/-- The field of a UBX-NAV-STATUS message read by `_NAV_STATUS_handler`. -/
structure StatusMsg where
  spoofDetState : ℕ
deriving DecidableEq, Repr

/-- `gnssmonitor._NAV_STATUS_handler` (lines 383-399): logs the spoofing
detection state; state 1 (nominal) is gated on `_verbose`, every other
recognized state is always logged; no state is written. -/
def NAV_STATUS_handler (s : Monitor) (m : StatusMsg) : Monitor × List String :=
  (s,
    match m.spoofDetState with
    | 0 => [get_last_UTC s ++ ": Unknown spoofing detection state"]
    | 1 => if s.verbose then [get_last_UTC s ++ ": No spooﬁng indicated"] else []
    | 2 => [get_last_UTC s ++ ": Spooﬁng indicated"]
    | 3 => [get_last_UTC s ++ ": Multiple spooﬁng indications"]
    | _ => [])

/-- The `bands` dictionary of `_MON_RF_handler` (lines 409-412). -/
def bands : List (ℤ × String) := [(0, "L1"), (1, "L2 or L5")]

/-- Python `bands[blockId]`: a dictionary subscript.  `Option.none` models
the `KeyError` raised when `blockId` is neither 0 nor 1 (including
`blockId` being Python `None` or a non-integer). -/
def bandsLookup (blockId : Option PyVal) : Option String :=
  match blockId with
  | Option.some (PyVal.int k) => bands.lookup k
  | _ => Option.none

/-- One iteration of the per-block `match jammingState` logging in
`_MON_RF_handler` (lines 417-429).  The band label `bands[blockId]` is
evaluated inside each print's format string, so it is only looked up when
that case actually prints: in case 1 the lookup happens only under
`_verbose`.  `Except.error ()` models the `KeyError` escaping the
handler. -/
def monRfBlock (utc : String) (vb : Bool) (rec : URecord) (i : ℕ) :
    Except Unit (List String) :=
  let blockId := getattr_helper rec "blockId_" i
  match getattr_helper rec "jammingState_" i with
  | Option.some (PyVal.int 0) =>
      match bandsLookup blockId with
      | Option.some b => Except.ok [utc ++ ": jamming state unknown on " ++ b ++ " band"]
      | Option.none => Except.error ()
  | Option.some (PyVal.int 1) =>
      if vb then
        match bandsLookup blockId with
        | Option.some b => Except.ok [utc ++ ": ok - no significant jamming on " ++ b ++ " band"]
        | Option.none => Except.error ()
      else Except.ok []
  | Option.some (PyVal.int 2) =>
      match bandsLookup blockId with
      | Option.some b => Except.ok [utc ++ ": warning - interference visible on " ++ b ++ " band but ﬁx OK"]
      | Option.none => Except.error ()
  | Option.some (PyVal.int 3) =>
      match bandsLookup blockId with
      | Option.some b => Except.ok [utc ++ ": critical - interference visible on " ++ b ++ " band and no ﬁx"]
      | Option.none => Except.error ()
  | _ => Except.ok []

/-- The raw-dump CSV row built per block in `_MON_RF_handler`
(lines 432-446). -/
def rfRow (utc : String) (rec : URecord) (i : ℕ) : List PyVal :=
  [PyVal.str utc,
   optVal (getattr_helper rec "blockId_" i),
   optVal (getattr_helper rec "jammingState_" i),
   optVal (getattr_helper rec "antStatus_" i),
   optVal (getattr_helper rec "antPower_" i),
   optVal (getattr_helper rec "postStatus_" i),
   optVal (getattr_helper rec "noisePerMS_" i),
   optVal (getattr_helper rec "agcCnt_" i),
   optVal (getattr_helper rec "jamInd_" i),
   optVal (getattr_helper rec "ofsI_" i),
   optVal (getattr_helper rec "magI_" i),
   optVal (getattr_helper rec "ofsQ_" i),
   optVal (getattr_helper rec "magQ_" i)]

/-- The `for i in range(1, msg.nBlocks+1)` loop body of `_MON_RF_handler`:
lines already printed before a `KeyError` stay printed (`Except.error`
carries them); rows are written to the CSV file only after the loop
completes, so an error discards them. -/
def monRfLoop (utc : String) (vb rawp : Bool) (rec : URecord) :
    List ℕ → Except (List String) (List String × List (List PyVal))
  | [] => Except.ok ([], [])
  | i :: rest =>
      match monRfBlock utc vb rec i with
      | Except.error _ => Except.error []
      | Except.ok ls =>
          match monRfLoop utc vb rawp rec rest with
          | Except.error ls2 => Except.error (ls ++ ls2)
          | Except.ok (ls2, rows2) =>
              Except.ok (ls ++ ls2, (if rawp then [rfRow utc rec i] else []) ++ rows2)

/-- The fields of a UBX-MON-RF message used by `_MON_RF_handler`. -/
structure RfMsg where
  nBlocks : ℕ
  urec : URecord
deriving DecidableEq, Repr

/-- `gnssmonitor._MON_RF_handler` (lines 402-452): iterates the repeated
jamming-state blocks, logging per `monRfBlock` and collecting raw-dump rows
when `_rawpath` is set; writes no monitor state. -/
def MON_RF_handler (s : Monitor) (m : RfMsg) :
    Monitor × Except (List String) (List String × List (List PyVal)) :=
  (s, monRfLoop (get_last_UTC s) s.verbose s.rawpath m.urec (List.range' 1 m.nBlocks))

/-- The fields of a UBX-RXM-RAWX message used by `_RXM_RAWX_handler`. -/
structure RawxMsg where
  numMeas : ℕ
  rcvTow : PyVal
  week : PyVal
  leapS : PyVal
  leapSec : PyVal
  clkReset : PyVal
  urec : URecord
deriving DecidableEq, Repr

/-- One CSV row of `_RXM_RAWX_handler` (lines 465-485). -/
def rawxRow (s : Monitor) (m : RawxMsg) (i : ℕ) : List PyVal :=
  [PyVal.str (get_last_UTC s), m.rcvTow, m.week, m.leapS, m.leapSec, m.clkReset,
   optVal (getattr_helper m.urec "prMes_" i),
   optVal (getattr_helper m.urec "cpMes_" i),
   optVal (getattr_helper m.urec "doMes_" i),
   optVal (getattr_helper m.urec "gnssId_" i),
   optVal (getattr_helper m.urec "svId_" i),
   optVal (getattr_helper m.urec "sigId_" i),
   optVal (getattr_helper m.urec "prStd_" i),
   optVal (getattr_helper m.urec "cpStd_" i),
   optVal (getattr_helper m.urec "doStd_" i),
   optVal (getattr_helper m.urec "prValid_" i),
   optVal (getattr_helper m.urec "cpValid_" i),
   optVal (getattr_helper m.urec "halfCyc_" i),
   optVal (getattr_helper m.urec "subHalfCyc_" i)]

/-- `gnssmonitor._RXM_RAWX_handler` (lines 456-490): builds one CSV row per
measurement block and appends them to the raw dump file; reads the UTC
state for the timestamp column but writes no monitor state. -/
def RXM_RAWX_handler (s : Monitor) (m : RawxMsg) : Monitor × List (List PyVal) :=
  (s, (List.range' 1 m.numMeas).map (rawxRow s m))

/-- The fields of a UBX-RXM-SFRBX message used by `_RXM_SFRBX_handler`. -/
structure SfrbxMsg where
  gnssId : PyVal
  sigId : PyVal
  freqId : PyVal
  chn : PyVal
  version : PyVal
  numWords : ℕ
  urec : URecord
deriving DecidableEq, Repr

/-- `gnssmonitor._RXM_SFRBX_handler` (lines 493-513): builds a single CSV
row (scalar fields, then the `dwrd_` repeated words) and appends it;
writes no monitor state. -/
def RXM_SFRBX_handler (s : Monitor) (m : SfrbxMsg) : Monitor × List PyVal :=
  (s,
    [PyVal.str (get_last_UTC s), m.gnssId, m.sigId, m.freqId, m.chn, m.version]
      ++ (List.range' 1 m.numWords).map (fun i => optVal (getattr_helper m.urec "dwrd_" i)))

/-- A decoded UBX message as seen by the dispatch and acknowledgment code:
frame class and id bytes (`msg_cls` / `msg_id`, modelled as their numeric
value), and — meaningful only for ACK-class messages — the `clsID` /
`msgID` payload bytes naming the acknowledged command; `cfgVals` carries
the configuration items of a CFG-VALGET response (meaningful only there). -/
structure UMsg where
  msg_cls : ℕ
  msg_id : ℕ
  clsID : ℕ
  msgID : ℕ
  cfgVals : List (String × ℤ)
deriving DecidableEq, Repr

/-- `gnssmonitor._other_handler` (lines 516-523): does nothing. -/
def other_handler (s : Monitor) (_m : UMsg) : Monitor × Unit :=
  (s, ())

/-- One read attempt from the serial stream, as seen by `_readmsg`:
either a decoded message or a codec decode error (`UBXMessageError`,
`UBXParseError`, `UBXStreamError`, `UBXTypeError`). -/
inductive ReadResult where
  | msg (m : UMsg) : ReadResult
  | decodeError (err : String) : ReadResult
deriving DecidableEq, Repr

/-- `gnssmonitor._readmsg` (lines 193-209): returns the parsed message;
on a codec decode error it prints the error line and falls off the end of
the function, returning Python `None` (modelled as `Option.none`). -/
def readmsg (ttypath : String) : ReadResult → Option UMsg × List String
  | ReadResult.msg m => (Option.some m, [])
  | ReadResult.decodeError e =>
      (Option.none, ["While reading from " ++ ttypath ++ " there was the error: " ++ e])

/-- A Python exception escaping the monitor loop. -/
inductive PyExn where
  | attributeError (msg : String) : PyExn
deriving DecidableEq, Repr

/-- The handlers a dispatch key can resolve to. -/
inductive HandlerTag where
  | navPvt | navStatus | monRf | rxmRawx | rxmSfrbx | other
deriving DecidableEq, Repr

/-- The `_ubxmsg_to_handler` dispatch table (lines 78-95): keys are the
(class, id) byte pairs; the RXM entries are added only when `_rawpath`
was given. -/
def ubxmsg_to_handler (rawpath : Bool) : List ((ℕ × ℕ) × HandlerTag) :=
  [((1, 7), HandlerTag.navPvt),
   ((1, 3), HandlerTag.navStatus),
   ((10, 56), HandlerTag.monRf)]
    ++ (if rawpath then
          [((2, 21), HandlerTag.rxmRawx), ((2, 19), HandlerTag.rxmSfrbx)]
        else [])

/-- `gnssmonitor._get_handler` (lines 526-537): builds the dispatch key
`msg.msg_cls + msg.msg_id` and looks it up with `_other_handler` as the
default.  When `_readmsg` returned `None` (after a decode error), the
attribute access `msg.msg_cls` raises `AttributeError`. -/
def get_handler (rawpath : Bool) : Option UMsg → Except PyExn HandlerTag
  | Option.none =>
      Except.error (PyExn.attributeError "NoneType object has no attribute msg_cls")
  | Option.some m =>
      Except.ok (((ubxmsg_to_handler rawpath).lookup (m.msg_cls, m.msg_id)).getD HandlerTag.other)

/-- One iteration of `gnssmonitor.monitor` (lines 669-678): read, then
resolve the handler.  The result is the resolved handler tag (or the
exception that aborts the loop) together with the console lines printed by
`_readmsg`. -/
def monitor_step (ttypath : String) (rawpath : Bool) (r : ReadResult) :
    Except PyExn HandlerTag × List String :=
  let p := readmsg ttypath r
  (get_handler rawpath p.1, p.2)

/-- The `ACKError` exception (lines 32-38), identified by its message. -/
structure ACKErrorE where
  message : String
deriving DecidableEq, Repr

/-- `gnssmonitor._ACK_helper` (lines 212-237): `Except.ok false` when the
message is not an ACK-class message or is an ACK for a different
(class, id) pair; `Except.ok true` for the matching ACK-ACK; raises
`ACKError` for a matching ACK-class message whose id is not the ACK-ACK id
(i.e. ACK-NAK). -/
def ACK_helper (m : UMsg) (clsID msgID : ℕ) : Except ACKErrorE Bool :=
  if m.msg_cls = 5 then
    if m.clsID = clsID ∧ m.msgID = msgID then
      if m.msg_id = 1 then Except.ok true
      else Except.error ⟨"Receiver responded with ACK-NAK"⟩
    else Except.ok false
  else Except.ok false

/-- Decidable equality for `Except`, used to evaluate `_ACK_helper` results
on concrete messages. -/
instance {ε α : Type} [DecidableEq ε] [DecidableEq α] : DecidableEq (Except ε α) := fun x y =>
  match x, y with
  | Except.ok a, Except.ok b =>
      if h : a = b then Decidable.isTrue (by rw [h]) else Decidable.isFalse (by simp [h])
  | Except.error a, Except.error b =>
      if h : a = b then Decidable.isTrue (by rw [h]) else Decidable.isFalse (by simp [h])
  | Except.ok _, Except.error _ => Decidable.isFalse (by simp)
  | Except.error _, Except.ok _ => Decidable.isFalse (by simp)

/-- Outcome of an acknowledgment wait. -/
inductive AckOutcome where
  | matchedAck | nakError | timedOut
deriving DecidableEq, Repr

/-- The wait loop of `gnssmonitor._cfg_receiver_RAM` (lines 250-255),
parameterized by the expected (class, id) pair and the receiver timeout.
Each stream entry carries the elapsed time observed at that iteration's
timeout check.  Returns the outcome and the number of messages consumed;
`Option.none` marks stream exhaustion (never reached under the theorems'
hypotheses — the real loop blocks on the serial read instead). -/
def cfg_wait (clsID msgID tmo : ℕ) : List (UMsg × ℕ) → Option (AckOutcome × ℕ)
  | [] => Option.none
  | (m, t) :: rest =>
      match ACK_helper m clsID msgID with
      | Except.error _ => Option.some (AckOutcome.nakError, 1)
      | Except.ok true => Option.some (AckOutcome.matchedAck, 1)
      | Except.ok false =>
          if tmo < t then Option.some (AckOutcome.timedOut, 1)
          else (cfg_wait clsID msgID tmo rest).map (fun r => (r.1, r.2 + 1))

/-- `gnssmonitor._cfg_receiver_RAM` (lines 240-255) after sending the
UBX-CFG-VALSET command: waits for its acknowledgment, whose `clsID`/`msgID`
payload is (0x06, 0x8a). -/
def cfg_receiver_RAM (tmo : ℕ) (stream : List (UMsg × ℕ)) : Option (AckOutcome × ℕ) :=
  cfg_wait 6 138 tmo stream

/-- Outcome of the configuration-capture wait in `_receiver_setup`:
capture completion, an `ACKError` (NAK or timeout), or an uncaught Python
exception escaping the loop. -/
inductive SetupOutcome where
  | captured (save : Option (List (String × ℤ))) : SetupOutcome
  | ackError (msg : String) : SetupOutcome
  | pyError (e : PyExn) : SetupOutcome
deriving DecidableEq, Repr

/-- The snapshot assignment of `_receiver_setup` (line 579):
`[(cfg_item, getattr(msg, cfg_item)) for (cfg_item, value) in self._cfg_data]`.
This `getattr` has no default, so the comprehension — evaluated left to
right — raises `AttributeError` at the first polled name the values
response does not carry, and that exception aborts the whole setup. -/
def valget_save (cfgItems : List String) (m : UMsg) :
    Except PyExn (List (String × ℤ)) :=
  match cfgItems with
  | [] => Except.ok []
  | n :: rest =>
      match m.cfgVals.lookup n with
      | Option.none => Except.error (PyExn.attributeError n)
      | Option.some v =>
          match valget_save rest m with
          | Except.error e => Except.error e
          | Except.ok tl => Except.ok ((n, v) :: tl)

/-- The capture wait loop of `gnssmonitor._receiver_setup` (lines 575-584):
`count` counts qualifying messages — CFG-VALGET responses (class 0x06,
id 0x8b), each of which also overwrites the snapshot (raising
`AttributeError` out of the loop if the response lacks a polled name), and
matching acknowledgments; the loop ends when `count` reaches 2.  A
matching ACK-NAK raises via `_ACK_helper`; the timeout check runs after
each message.  `Option.none` marks stream exhaustion (not reached under
the theorems' hypotheses). -/
def setup_wait (cfgItems : List String) (tmo : ℕ)
    (count : ℕ) (save : Option (List (String × ℤ))) :
    List (UMsg × ℕ) → Option SetupOutcome
  | [] => Option.none
  | (m, t) :: rest =>
      match (if m.msg_cls = 6 ∧ m.msg_id = 139 then
               (valget_save cfgItems m).map (fun sv => (count + 1, Option.some sv))
             else Except.ok (count, save)) with
      | Except.error e => Option.some (SetupOutcome.pyError e)
      | Except.ok (count2, save2) =>
          match ACK_helper m 6 139 with
          | Except.error e => Option.some (SetupOutcome.ackError e.message)
          | Except.ok b =>
              let count3 := if b then count2 + 1 else count2
              if tmo < t then
                Option.some (SetupOutcome.ackError
                  "neither ACK-ACK nor ACK-NAK was received within the timelimit")
              else if count3 < 2 then setup_wait cfgItems tmo count3 save2 rest
              else Option.some (SetupOutcome.captured save2)

/-- The capture phase of `gnssmonitor._receiver_setup` (lines 565-585)
after sending the UBX-CFG-VALGET poll: `count` starts at 0 and
`_cfg_data_save` at `None`. -/
def receiver_setup (cfgItems : List String) (tmo : ℕ)
    (stream : List (UMsg × ℕ)) : Option SetupOutcome :=
  setup_wait cfgItems tmo 0 Option.none stream

/-!
## Acknowledgment Waiter lemmas (shared by the C3, C7 and C8 theorems)
-/

/-- `_ACK_helper` on a matching ACK-class message that is not ACK-ACK:
raises the NAK `ACKError`. -/
theorem ACK_helper_nak (m : UMsg) (clsID msgID : ℕ)
    (h1 : m.msg_cls = 5) (h2 : m.clsID = clsID) (h3 : m.msgID = msgID)
    (h4 : m.msg_id ≠ 1) :
    ACK_helper m clsID msgID = Except.error ⟨"Receiver responded with ACK-NAK"⟩ := by
  simp [ACK_helper, h1, h2, h3, h4]

/-- `_ACK_helper` on the matching ACK-ACK: returns `True`. -/
theorem ACK_helper_ack (m : UMsg) (clsID msgID : ℕ)
    (h1 : m.msg_cls = 5) (h2 : m.clsID = clsID) (h3 : m.msgID = msgID)
    (h4 : m.msg_id = 1) :
    ACK_helper m clsID msgID = Except.ok true := by
  simp [ACK_helper, h1, h2, h3, h4]

/-- A prefix of messages on which `_ACK_helper` returns `False`, each seen
while the deadline has not yet been exceeded, is skipped by the wait loop:
the outcome is that of the rest of the stream, with the consumed-message
count shifted by the prefix length. -/
theorem cfg_wait_append (clsID msgID tmo : ℕ) (pre s : List (UMsg × ℕ))
    (h : ∀ p ∈ pre, ACK_helper p.1 clsID msgID = Except.ok false ∧ p.2 ≤ tmo) :
    cfg_wait clsID msgID tmo (pre ++ s)
      = (cfg_wait clsID msgID tmo s).map (fun r => (r.1, r.2 + pre.length)) := by
  induction pre with
  | nil =>
      cases hs : cfg_wait clsID msgID tmo s <;> simp [hs]
  | cons p pre ih =>
      obtain ⟨hp, hpre⟩ := List.forall_mem_cons.mp h
      obtain ⟨m, t⟩ := p
      have ht : ¬ tmo < t := Nat.not_lt.mpr hp.2
      rw [List.cons_append]
      rw [show cfg_wait clsID msgID tmo ((m, t) :: (pre ++ s))
            = (cfg_wait clsID msgID tmo (pre ++ s)).map (fun r => (r.1, r.2 + 1)) by
        simp [cfg_wait, hp.1, ht]]
      rw [ih hpre]
      cases hs : cfg_wait clsID msgID tmo s <;>
        simp [hs, Nat.add_assoc]

/-- An ACK-ACK message acknowledging command class `c`, id `i`. -/
def ackMsgFor (c i : ℕ) : UMsg := ⟨5, 1, c, i, []⟩

/-- An ACK-NAK message acknowledging command class `c`, id `i`. -/
def nakMsgFor (c i : ℕ) : UMsg := ⟨5, 0, c, i, []⟩

/-- A non-acknowledgment message (a UBX-NAV-PVT frame). -/
def navPvtUMsg : UMsg := ⟨1, 7, 0, 0, []⟩

/-- C3: when the acknowledgment wait loop of `_cfg_receiver_RAM` receives
an ACK-class message whose embedded (class, id) equals the expected pair
and whose message id is not the ACK-ACK id (i.e. an ACK-NAK), it fails
with the NAK `ACKError` on that first occurrence, consuming exactly the
messages up to and including the NAK — the result does not depend on the
rest of the stream, on the NAK's arrival time, or on the deadline. -/
theorem C3_nak_immediate (clsID msgID tmo : ℕ) (pre rest : List (UMsg × ℕ))
    (nakm : UMsg) (t : ℕ)
    (hpre : ∀ p ∈ pre, ACK_helper p.1 clsID msgID = Except.ok false ∧ p.2 ≤ tmo)
    (h1 : nakm.msg_cls = 5) (h2 : nakm.clsID = clsID) (h3 : nakm.msgID = msgID)
    (h4 : nakm.msg_id ≠ 1) :
    cfg_wait clsID msgID tmo (pre ++ (nakm, t) :: rest)
      = Option.some (AckOutcome.nakError, pre.length + 1) := by
  rw [cfg_wait_append _ _ _ pre _ hpre]
  simp [cfg_wait, ACK_helper_nak nakm clsID msgID h1 h2 h3 h4, Nat.add_comm]

/-- Witness for C3: with expected pair (0x06, 0x8a) and deadline 5, a
stream holding an unrelated ACK, then the matching NAK, then a further
matching ACK yields the NAK error after consuming exactly two messages. -/
theorem C3_nak_immediate_witness :
    cfg_receiver_RAM 5 [(ackMsgFor 6 139, 0), (nakMsgFor 6 138, 1), (ackMsgFor 6 138, 2)]
      = Option.some (AckOutcome.nakError, 2) :=
  C3_nak_immediate 6 138 5 [(ackMsgFor 6 139, 0)] [(ackMsgFor 6 138, 2)]
    (nakMsgFor 6 138) 1 (by decide) rfl rfl rfl (by decide)

/-- C7: ACK-class messages for a different (class, id) pair (and any other
non-matching messages) received before the deadline are discarded and the
wait continues; once the matching ACK-ACK arrives, the wait loop of
`_cfg_receiver_RAM` returns the matched outcome — never a failure. -/
theorem C7_skip_unrelated_ack (clsID msgID tmo : ℕ) (pre rest : List (UMsg × ℕ))
    (ackm : UMsg) (t : ℕ)
    (hpre : ∀ p ∈ pre, ACK_helper p.1 clsID msgID = Except.ok false ∧ p.2 ≤ tmo)
    (h1 : ackm.msg_cls = 5) (h2 : ackm.clsID = clsID) (h3 : ackm.msgID = msgID)
    (h4 : ackm.msg_id = 1) :
    cfg_wait clsID msgID tmo (pre ++ (ackm, t) :: rest)
      = Option.some (AckOutcome.matchedAck, pre.length + 1) := by
  rw [cfg_wait_append _ _ _ pre _ hpre]
  simp [cfg_wait, ACK_helper_ack ackm clsID msgID h1 h2 h3 h4, Nat.add_comm]

/-- Witness for C7: an ACK for a different key (0x06, 0x8b) followed by the
matching ACK for (0x06, 0x8a) yields the matched-ACK outcome. -/
theorem C7_skip_unrelated_ack_witness :
    cfg_receiver_RAM 5 [(ackMsgFor 6 139, 0), (ackMsgFor 6 138, 1)]
      = Option.some (AckOutcome.matchedAck, 2) :=
  C7_skip_unrelated_ack 6 138 5 [(ackMsgFor 6 139, 0)] []
    (ackMsgFor 6 138) 1 (by decide) rfl rfl rfl rfl

/-- C8: on a stream with no matching acknowledgment, the wait loop of
`_cfg_receiver_RAM` fails with the timeout `ACKError`, and it does so no
earlier than the deadline: every message processed before the failure was
seen with elapsed time at most the configured receiver timeout, and the
failing check happens at the first message whose elapsed time exceeds it. -/
theorem C8_timeout_after_deadline (clsID msgID tmo : ℕ) (pre rest : List (UMsg × ℕ))
    (m : UMsg) (t : ℕ)
    (hpre : ∀ p ∈ pre, ACK_helper p.1 clsID msgID = Except.ok false ∧ p.2 ≤ tmo)
    (hm : ACK_helper m clsID msgID = Except.ok false)
    (ht : tmo < t) :
    cfg_wait clsID msgID tmo (pre ++ (m, t) :: rest)
      = Option.some (AckOutcome.timedOut, pre.length + 1) := by
  rw [cfg_wait_append _ _ _ pre _ hpre]
  simp [cfg_wait, hm, ht, Nat.add_comm]

/-- Witness for C8: with deadline 5, unrelated traffic at elapsed times 1
and 6 produces the timeout outcome at the first check past the deadline. -/
theorem C8_timeout_after_deadline_witness :
    cfg_receiver_RAM 5 [(navPvtUMsg, 1), (navPvtUMsg, 6)]
      = Option.some (AckOutcome.timedOut, 2) :=
  C8_timeout_after_deadline 6 138 5 [(navPvtUMsg, 1)] []
    navPvtUMsg 6 (by decide) (by decide) (by decide)

/-- The configuration item names of `_cfg_data` (lines 70-75), as polled by
`_receiver_setup` when no raw dump is requested. -/
def cfg_data_items : List String :=
  ["CFG_MSGOUT_UBX_NAV_PVT_UART1",
   "CFG_MSGOUT_UBX_NAV_STATUS_UART1",
   "CFG_MSGOUT_UBX_MON_RF_UART1",
   "CFG_ITFM_ENABLE"]

/-- A CFG-VALGET response carrying values for the polled items. -/
def valgetUMsg : UMsg :=
  ⟨6, 139, 0, 0,
   [("CFG_MSGOUT_UBX_NAV_PVT_UART1", 1),
    ("CFG_MSGOUT_UBX_NAV_STATUS_UART1", 0),
    ("CFG_MSGOUT_UBX_MON_RF_UART1", 0),
    ("CFG_ITFM_ENABLE", 0)]⟩

/-- Counterexample for C2: the capture loop of `_receiver_setup` counts
qualifying messages rather than tracking the response and the
acknowledgment separately, so a stream delivering two matching
acknowledgments and no configuration-values response at all also ends the
wait — the snapshot is "captured" with `_cfg_data_save` still `None`,
refuting that capture happens only after both messages are received. -/
theorem C2_capture_without_response :
    receiver_setup cfg_data_items 5 [(ackMsgFor 6 139, 0), (ackMsgFor 6 139, 0)]
      = Option.some (SetupOutcome.captured Option.none) := by
  rfl

/-- C2 (amended): the capture loop accepts a configuration-values response
carrying current values for all the polled names (so that line 579's bare
`getattr` succeeds instead of raising `AttributeError`) and the matching
acknowledgment in either arrival order, counting each as one of the two
qualifying messages it waits for; with both arriving within the deadline
it ends with the snapshot taken from the values response. -/
theorem C2_either_order (cfgItems : List String) (tmo : ℕ) (vg ack : UMsg)
    (sv : List (String × ℤ)) (t1 t2 : ℕ) (rest : List (UMsg × ℕ))
    (hvg1 : vg.msg_cls = 6) (hvg2 : vg.msg_id = 139)
    (hvals : valget_save cfgItems vg = Except.ok sv)
    (ha1 : ack.msg_cls = 5) (ha2 : ack.msg_id = 1)
    (ha3 : ack.clsID = 6) (ha4 : ack.msgID = 139)
    (ht1 : t1 ≤ tmo) (ht2 : t2 ≤ tmo) :
    receiver_setup cfgItems tmo ((vg, t1) :: (ack, t2) :: rest)
      = Option.some (SetupOutcome.captured (Option.some sv))
    ∧ receiver_setup cfgItems tmo ((ack, t1) :: (vg, t2) :: rest)
      = Option.some (SetupOutcome.captured (Option.some sv)) := by
  have hn1 : ¬ tmo < t1 := Nat.not_lt.mpr ht1
  have hn2 : ¬ tmo < t2 := Nat.not_lt.mpr ht2
  constructor <;>
    simp [receiver_setup, setup_wait, ACK_helper, Except.map, hvg1, hvg2, hvals,
      ha1, ha2, ha3, ha4, hn1, hn2]

/-- Witness for C2 (amended): a concrete values response carrying all four
polled items, and the matching ack, in both orders, each yield the
captured snapshot of the response. -/
theorem C2_either_order_witness :
    receiver_setup cfg_data_items 5 [(valgetUMsg, 0), (ackMsgFor 6 139, 1)]
      = Option.some (SetupOutcome.captured (Option.some valgetUMsg.cfgVals))
    ∧ receiver_setup cfg_data_items 5 [(ackMsgFor 6 139, 0), (valgetUMsg, 1)]
      = Option.some (SetupOutcome.captured (Option.some valgetUMsg.cfgVals)) :=
  C2_either_order cfg_data_items 5 valgetUMsg (ackMsgFor 6 139) valgetUMsg.cfgVals 0 1 []
    rfl rfl (by decide) rfl rfl rfl rfl (by decide) (by decide)

/-- C1 (code evaluation at the failing input): when `_readmsg` hits a
decode error it prints the error line and returns `None`; the monitor loop
then calls `_get_handler(None)`, whose attribute access raises
`AttributeError`, aborting the loop — while a well-formed message resolves
to its handler and the loop continues.  This contradicts the claim that a
decode error drops only that message and the loop continues. -/
theorem C1_decode_error_stops_loop :
    monitor_step "/dev/ttyS5" false (ReadResult.decodeError "Invalid message header") =
      (Except.error (PyExn.attributeError "NoneType object has no attribute msg_cls"),
       ["While reading from /dev/ttyS5 there was the error: Invalid message header"])
    ∧ monitor_step "/dev/ttyS5" false (ReadResult.msg navPvtUMsg)
      = (Except.ok HandlerTag.navPvt, []) := by
  exact ⟨rfl, rfl⟩

/-- The date-validity flag after a `_NAV_PVT_handler` update equals the
message's `confirmedDate == 1` test, whatever it was before. -/
theorem NAV_PVT_update_date_valid (s : Monitor) (m : PvtMsg) :
    (NAV_PVT_update s m).last_UTC_date_valid = decide (m.confirmedDate = 1) := by
  unfold NAV_PVT_update
  by_cases h1 : m.confirmedDate = 1 <;> by_cases h2 : m.confirmedTime = 1 <;>
    simp [h1, h2]

/-- The time-validity flag after a `_NAV_PVT_handler` update equals the
message's `confirmedTime == 1` test, whatever it was before. -/
theorem NAV_PVT_update_tod_valid (s : Monitor) (m : PvtMsg) :
    (NAV_PVT_update s m).last_UTC_tod_valid = decide (m.confirmedTime = 1) := by
  unfold NAV_PVT_update
  by_cases h1 : m.confirmedDate = 1 <;> by_cases h2 : m.confirmedTime = 1 <;>
    simp [h1, h2]

/-- C4: after every `_NAV_PVT_handler` UTC update the two validity flags
equal exactly the latest message's confirmation flags; and feeding an
update with `confirmedDate = 1` followed by one with `confirmedDate ≠ 1`
leaves `_get_last_UTC` rendering the invalid-date placeholder instead of
the previously stored date — a prior valid date is never kept valid. -/
theorem C4_utc_latest_flags :
    (∀ (s : Monitor) (m : PvtMsg),
        (NAV_PVT_update s m).last_UTC_date_valid = decide (m.confirmedDate = 1)
        ∧ (NAV_PVT_update s m).last_UTC_tod_valid = decide (m.confirmedTime = 1))
    ∧ (∀ (s : Monitor) (m1 m2 : PvtMsg),
        m1.confirmedDate = 1 → m2.confirmedDate ≠ 1 →
        (NAV_PVT_update (NAV_PVT_update s m1) m2).last_UTC_date_valid = false
        ∧ get_last_UTC (NAV_PVT_update (NAV_PVT_update s m1) m2)
          = "no_valid_date" ++ " "
            ++ (if (NAV_PVT_update (NAV_PVT_update s m1) m2).last_UTC_tod_valid then
                  (NAV_PVT_update (NAV_PVT_update s m1) m2).last_UTC_tod.getD "" ++ " n="
                    ++ (NAV_PVT_update (NAV_PVT_update s m1) m2).last_UTC_nano.getD ""
                else "no_valid_time")) := by
  constructor
  · exact fun s m => ⟨NAV_PVT_update_date_valid s m, NAV_PVT_update_tod_valid s m⟩
  · intro s m1 m2 _h1 h2
    have hd : (NAV_PVT_update (NAV_PVT_update s m1) m2).last_UTC_date_valid = false := by
      rw [NAV_PVT_update_date_valid]
      exact decide_eq_false h2
    exact ⟨hd, by simp [get_last_UTC, hd]⟩

/-- A NAV-PVT message with both confirmation flags set. -/
def pvtConfirmed : PvtMsg := ⟨2024, 2, 7, 12, 30, 5, 123, 1, 1, 1⟩

/-- A NAV-PVT message with both confirmation flags clear. -/
def pvtUnconfirmed : PvtMsg := ⟨2024, 2, 7, 12, 30, 6, 0, 0, 0, 0⟩

/-- Witness for C4: after a confirmed-date update followed by an
unconfirmed one, starting from the initial state, the formatted output is
the two placeholders — the date from the first update does not appear. -/
theorem C4_utc_latest_flags_witness :
    pvtConfirmed.confirmedDate = 1 ∧ pvtUnconfirmed.confirmedDate ≠ 1 ∧
    (NAV_PVT_update (NAV_PVT_update (initMonitor false false) pvtConfirmed)
        pvtUnconfirmed).last_UTC_date_valid = false ∧
    get_last_UTC (NAV_PVT_update (NAV_PVT_update (initMonitor false false) pvtConfirmed)
        pvtUnconfirmed) = "no_valid_date" ++ " " ++ "no_valid_time" := by
  have h := C4_utc_latest_flags.2 (initMonitor false false) pvtConfirmed pvtUnconfirmed
    rfl (by decide)
  refine ⟨rfl, by decide, h.1, ?_⟩
  rw [h.2]
  simp [NAV_PVT_update_tod_valid, pvtUnconfirmed]

/-- A jamming-state block on an unmapped band (blockId 2) in the nominal
jamming state (code 1). -/
def rfSilentRec : URecord :=
  ⟨[("blockId_01", PyVal.int 2), ("jammingState_01", PyVal.int 1)]⟩

/-- A jamming-state block on an unmapped band (blockId 2) in the warning
jamming state (code 2). -/
def rfErrRec : URecord :=
  ⟨[("blockId_01", PyVal.int 2), ("jammingState_01", PyVal.int 2)]⟩

/-- A non-verbose monitoring session without raw dump. -/
def monQuiet : Monitor := initMonitor false false

/-- Counterexample for C5: a jamming-state record on a band with no known
label (blockId 2) and jamming code 1, with verbosity off, is processed by
`_MON_RF_handler` without any error: `bands[blockId]` sits inside the
verbosity-gated print, so nothing evaluates it and the record is silently
skipped — refuting that an unmapped band is fatal regardless of the
jamming-state code and the verbosity flag. -/
theorem C5_unmapped_band_counterexample :
    MON_RF_handler monQuiet ⟨1, rfSilentRec⟩ = (monQuiet, Except.ok ([], [])) := by
  rfl

/-- C5 (amended): an unmapped band identifier is a fatal `KeyError` exactly
when the jamming-state case prints: always for codes 0, 2 and 3; for the
nominal code 1 only when verbosity is on, the record being silently
skipped otherwise; and the error propagates out of `_MON_RF_handler`
(no rows are written, no fallback label is used). -/
theorem C5_unmapped_band_amended :
    (∀ (utc : String) (vb : Bool) (rec : URecord) (i : ℕ),
        bandsLookup (getattr_helper rec "blockId_" i) = Option.none →
        (getattr_helper rec "jammingState_" i = Option.some (PyVal.int 0)
          ∨ getattr_helper rec "jammingState_" i = Option.some (PyVal.int 2)
          ∨ getattr_helper rec "jammingState_" i = Option.some (PyVal.int 3)) →
        monRfBlock utc vb rec i = Except.error ())
    ∧ (∀ (utc : String) (vb : Bool) (rec : URecord) (i : ℕ),
        bandsLookup (getattr_helper rec "blockId_" i) = Option.none →
        getattr_helper rec "jammingState_" i = Option.some (PyVal.int 1) →
        monRfBlock utc vb rec i = if vb then Except.error () else Except.ok [])
    ∧ (∀ (s : Monitor) (rec : URecord),
        bandsLookup (getattr_helper rec "blockId_" 1) = Option.none →
        getattr_helper rec "jammingState_" 1 = Option.some (PyVal.int 2) →
        (MON_RF_handler s ⟨1, rec⟩).2 = Except.error []) := by
  refine ⟨?_, ?_, ?_⟩
  · intro utc vb rec i hb hj
    rcases hj with hj | hj | hj <;> simp [monRfBlock, hj, hb]
  · intro utc vb rec i hb hj
    cases vb <;> simp [monRfBlock, hj, hb]
  · intro s rec hb hj
    simp [MON_RF_handler, show List.range' 1 1 = [1] from rfl, monRfLoop, monRfBlock, hj, hb]

/-- Witness for C5 (amended): on the unmapped band, jamming code 2 errors
(also at the handler level), while code 1 with verbosity off is skipped
and with verbosity on errors. -/
theorem C5_unmapped_band_amended_witness :
    monRfBlock "u" false rfErrRec 1 = Except.error ()
    ∧ monRfBlock "u" false rfSilentRec 1 = Except.ok []
    ∧ monRfBlock "u" true rfSilentRec 1 = Except.error ()
    ∧ (MON_RF_handler monQuiet ⟨1, rfErrRec⟩).2 = Except.error [] := by
  refine ⟨C5_unmapped_band_amended.1 "u" false rfErrRec 1 (by decide)
      (Or.inr (Or.inl (by decide))), ?_, ?_,
    C5_unmapped_band_amended.2.2 monQuiet rfErrRec (by decide) (by decide)⟩
  · simpa using C5_unmapped_band_amended.2.1 "u" false rfSilentRec 1 (by decide) (by decide)
  · simpa using C5_unmapped_band_amended.2.1 "u" true rfSilentRec 1 (by decide) (by decide)

/-- C6: verbosity gating of the Alert Classifier across its three
enumerated inputs, for mapped bands.  Jamming per band: codes 0, 2 and 3
emit exactly one line regardless of verbosity, the nominal code 1 emits
exactly one "ok" line when verbose and nothing otherwise.  Spoofing:
states 0, 2 and 3 always emit, the nominal state 1 only when verbose.
Fix validity: `gnssFixOk = 0` always emits, the nominal 1 only when
verbose. -/
theorem C6_classifier_verbosity :
    (∀ (utc : String) (vb : Bool) (rec : URecord) (i : ℕ) (b : String),
        bandsLookup (getattr_helper rec "blockId_" i) = Option.some b →
        (getattr_helper rec "jammingState_" i = Option.some (PyVal.int 2) →
            monRfBlock utc vb rec i
              = Except.ok [utc ++ ": warning - interference visible on " ++ b ++ " band but ﬁx OK"])
        ∧ (getattr_helper rec "jammingState_" i = Option.some (PyVal.int 1) →
            monRfBlock utc vb rec i
              = Except.ok (if vb then [utc ++ ": ok - no significant jamming on " ++ b ++ " band"] else []))
        ∧ (getattr_helper rec "jammingState_" i = Option.some (PyVal.int 0) →
            monRfBlock utc vb rec i
              = Except.ok [utc ++ ": jamming state unknown on " ++ b ++ " band"])
        ∧ (getattr_helper rec "jammingState_" i = Option.some (PyVal.int 3) →
            monRfBlock utc vb rec i
              = Except.ok [utc ++ ": critical - interference visible on " ++ b ++ " band and no ﬁx"]))
    ∧ (∀ (s : Monitor) (m : StatusMsg),
        (m.spoofDetState = 0 →
            (NAV_STATUS_handler s m).2 = [get_last_UTC s ++ ": Unknown spoofing detection state"])
        ∧ (m.spoofDetState = 1 →
            (NAV_STATUS_handler s m).2
              = if s.verbose then [get_last_UTC s ++ ": No spooﬁng indicated"] else [])
        ∧ (m.spoofDetState = 2 →
            (NAV_STATUS_handler s m).2 = [get_last_UTC s ++ ": Spooﬁng indicated"])
        ∧ (m.spoofDetState = 3 →
            (NAV_STATUS_handler s m).2 = [get_last_UTC s ++ ": Multiple spooﬁng indications"]))
    ∧ (∀ (s : Monitor) (m : PvtMsg),
        (m.gnssFixOk = 0 → NAV_PVT_fix_lines s m = [get_last_UTC s ++ ": No valid fix"])
        ∧ (m.gnssFixOk = 1 →
            NAV_PVT_fix_lines s m = if s.verbose then [get_last_UTC s ++ ": Valid fix"] else [])) := by
  refine ⟨?_, ?_, ?_⟩
  · intro utc vb rec i b hb
    refine ⟨fun hj => ?_, fun hj => ?_, fun hj => ?_, fun hj => ?_⟩ <;>
      · cases vb <;> simp [monRfBlock, hj, hb]
  · intro s m
    refine ⟨fun h => ?_, fun h => ?_, fun h => ?_, fun h => ?_⟩ <;>
      simp [NAV_STATUS_handler, h]
  · intro s m
    refine ⟨fun h => ?_, fun h => ?_⟩ <;> simp [NAV_PVT_fix_lines, h]

/-- A band-0 jamming-state block with warning code 2. -/
def rfWarnRec : URecord :=
  ⟨[("blockId_01", PyVal.int 0), ("jammingState_01", PyVal.int 2)]⟩

/-- A band-0 jamming-state block with nominal code 1. -/
def rfOkRec : URecord :=
  ⟨[("blockId_01", PyVal.int 0), ("jammingState_01", PyVal.int 1)]⟩

/-- Witness for C6: on band 0, jamming code 2 emits the warning line even
with verbosity off; code 1 emits nothing with verbosity off and exactly
one ok line with verbosity on. -/
theorem C6_classifier_verbosity_witness :
    monRfBlock "u" false rfWarnRec 1
      = Except.ok ["u" ++ ": warning - interference visible on " ++ "L1" ++ " band but ﬁx OK"]
    ∧ monRfBlock "u" false rfOkRec 1 = Except.ok []
    ∧ monRfBlock "u" true rfOkRec 1
      = Except.ok ["u" ++ ": ok - no significant jamming on " ++ "L1" ++ " band"] := by
  refine ⟨(C6_classifier_verbosity.1 "u" false rfWarnRec 1 "L1" (by decide)).1 (by decide),
    ?_, ?_⟩
  · simpa using (C6_classifier_verbosity.1 "u" false rfOkRec 1 "L1" (by decide)).2.1 (by decide)
  · simpa using (C6_classifier_verbosity.1 "u" true rfOkRec 1 "L1" (by decide)).2.1 (by decide)

/-- Lookup in a decoded record's attribute bag succeeds exactly when the
attribute name is present (Python `getattr` with a default never
raises). -/
theorem pygetattr_isSome_iff (r : URecord) (name : String) :
    (pygetattr r name).isSome = true ↔ name ∈ r.attrs.map Prod.fst := by
  obtain ⟨l⟩ := r
  simp only [pygetattr]
  induction l with
  | nil => simp [List.lookup]
  | cons p tl ih =>
      obtain ⟨k, v⟩ := p
      by_cases h : name = k
      · simp [List.lookup, h]
      · have hb : (name == k) = false := beq_eq_false_iff_ne.mpr h
        simp [List.lookup, hb, ih, h]

/-- C9: for a decoded record carrying a repeated block group of `N`
sub-blocks under `stem` (attributes `stem ++ zfill(i, 2)` present exactly
for `i = 1..N`), `_getattr_helper` returns a defined value for every index
in `1..N` and the absent value (`None`) for index `N + 1`; being a total
function into `Option`, it raises no error for any index. -/
theorem C9_repeated_block_extractor (rec : URecord) (stem : String) (N : ℕ)
    (hin : ∀ i, 1 ≤ i → i ≤ N → (stem ++ zfillN i 2) ∈ rec.attrs.map Prod.fst)
    (hout : (stem ++ zfillN (N + 1) 2) ∉ rec.attrs.map Prod.fst) :
    (∀ i, 1 ≤ i → i ≤ N → (getattr_helper rec stem i).isSome = true)
    ∧ getattr_helper rec stem (N + 1) = Option.none := by
  constructor
  · intro i h1 h2
    exact (pygetattr_isSome_iff rec _).mpr (hin i h1 h2)
  · rw [getattr_helper]
    cases hc : pygetattr rec (stem ++ zfillN (N + 1) 2) with
    | none => rfl
    | some v =>
        exact absurd ((pygetattr_isSome_iff rec _).mp (by simp [hc])) hout

/-- An RF record with two jamming-state blocks. -/
def rfTwoBlockRec : URecord :=
  ⟨[("jammingState_01", PyVal.int 2), ("jammingState_02", PyVal.int 1)]⟩

/-- Witness for C9: on a two-block record, indices 1 and 2 extract defined
values and index 3 extracts the absent value. -/
theorem C9_repeated_block_extractor_witness :
    ((getattr_helper rfTwoBlockRec "jammingState_" 1).isSome = true
      ∧ (getattr_helper rfTwoBlockRec "jammingState_" 2).isSome = true)
    ∧ getattr_helper rfTwoBlockRec "jammingState_" 3 = Option.none := by
  have h := C9_repeated_block_extractor rfTwoBlockRec "jammingState_" 2
    (by intro i h1 h2; interval_cases i <;> decide) (by decide)
  exact ⟨⟨h.1 1 (by decide) (by decide), h.1 2 (by decide) (by decide)⟩, h.2⟩

/-- C10: the UTC state is mutated only by the position-message handler:
the status, RF-monitor, raw-observation and raw-subframe handlers and the
no-op handler all return the monitor state they were given unchanged (so
in particular all five `_last_UTC_*` fields are unchanged), for every
state and every input record. -/
theorem C10_utc_frame (s : Monitor) (m1 : StatusMsg) (m2 : RfMsg)
    (m3 : RawxMsg) (m4 : SfrbxMsg) (m5 : UMsg) :
    (NAV_STATUS_handler s m1).1 = s
    ∧ (MON_RF_handler s m2).1 = s
    ∧ (RXM_RAWX_handler s m3).1 = s
    ∧ (RXM_SFRBX_handler s m4).1 = s
    ∧ (other_handler s m5).1 = s :=
  ⟨rfl, rfl, rfl, rfl, rfl⟩
